import Mathlib

/-!
Shallow embedding of chartify/_core/chart.py (classes Chart and Logo).

Conventions of the embedding:
* Python objects become Lean structures; in-place mutation becomes a state
  update, and a method that ends in `return self` is modelled as returning
  the updated state together with `RetVal.self`, recording what the Python
  `return` statement produced.
* A raised Python exception becomes the `Except.error` branch; a function
  that cannot raise is total.
* The external image library (PIL) is modelled by `PILImage`, which records
  the pixel size of an image and how it was produced (decoded from bytes,
  or resized with a given filter), and by `ChartImage`, which additionally
  records the list of paste operations applied to a chart screenshot.
* The bokeh figure state that the claims observe (title text, subtitle text,
  source-label text, legend, toolbar location) is inlined into `Chart`.
  `figure.legend` is an empty splattable list until data is plotted, modelled
  as `Option Legend`; attribute assignment on the empty list is a no-op.
-/

/-- Valid x-axis types listed in Chart.init (chart.py lines 87-89). -/
def valid_x_axis_types : List String :=
  ["linear", "log", "datetime", "categorical", "density"]

/-- Valid y-axis types listed in Chart.init (chart.py line 90). -/
def valid_y_axis_types : List String :=
  ["linear", "log", "categorical", "density"]

/-- Resampling filter constants of the image library used by the code. -/
inductive Resample
  | lanczos
  deriving DecidableEq

/-- An in-memory image of the external image library: either the result of
decoding raw bytes (Image.open over a byte buffer) or the result of a resize
call, recording the requested dimensions and the filter that was used. -/
inductive PILImage
  | decoded (width height : Nat)
  | resized (orig : PILImage) (width height : Nat) (filter : Resample)
  deriving DecidableEq

/-- Pixel dimensions of an image, as reported by the size attribute. -/
def PILImage.size : PILImage → Nat × Nat
  | PILImage.decoded w h => (w, h)
  | PILImage.resized _ w h _ => (w, h)

/-- Image.resize(dims, resample=filter) of the image library. -/
def PILImage.resize (i : PILImage) (dims : Nat × Nat) (filter : Resample) :
    PILImage :=
  PILImage.resized i dims.1 dims.2 filter

/-- Value stored in the location attribute of a bokeh legend: a named
position or a coordinate pair. The numeric type of coordinates is
irrelevant to the control flow; integers stand in for Python floats. -/
inductive LocVal
  | name (s : String)
  | coords (x y : Int)
  deriving DecidableEq

/-- The bokeh legend attached to a figure. `panel` is the layout slot the
legend annotation lives in (the slot in the center area when created by
plotting; add_layout re-attaches it above, below or right of the plot).
`attachedToPlot` models the `plot` back-reference that add_outside_legend
clears before re-attaching the legend. -/
structure Legend where
  location : LocVal
  orientation : String
  visible : Bool
  panel : String
  attachedToPlot : Bool
  deriving DecidableEq

/-- Argument accepted by set_legend_location: a named position, a coordinate
pair, or Python None. -/
inductive LocArg
  | name (s : String)
  | coords (x y : Int)
  | noneLoc
  deriving DecidableEq

/-- What a Python method returned: the object it was called on, or None. -/
inductive RetVal
  | self
  | pyNone
  deriving DecidableEq

/-- The observable state of a Chart object: constructor arguments, the plot
dimensions taken from the style layout, the three label texts held by
figure.title, the subtitle glyph and the source-label glyph, the legend
list of the figure (empty until data is plotted), and the toolbar location. -/
structure Chart where
  blankLabels : Bool
  xAxisType : String
  yAxisType : String
  plotWidth : Nat
  plotHeight : Nat
  titleText : String
  subtitleText : String
  sourceTextVal : String
  legend : Option Legend
  toolbarLocation : Option String
  deriving DecidableEq

/-- Default title placeholder set by Chart.init when blank_labels is false
(chart.py line 116). -/
def default_title_text : String := "ch.set_title(\x27Takeaway\x27)"

/-- Default subtitle placeholder (chart.py line 159). -/
def default_subtitle_text : String := "ch.set_subtitle(\x27Data Description\x27)"

/-- Default source-label placeholder (chart.py line 175). -/
def default_source_text : String := "ch.set_source_label(\x27Source\x27)"

/-- The invalid-argument error raised by Chart.init, carrying the list of
valid options interpolated into the error message. -/
inductive ChartInitError
  | invalidXAxisType (validOptions : List String)
  | invalidYAxisType (validOptions : List String)
  deriving DecidableEq

/-- Chart.init. Axis types are validated first; an invalid value raises a
ValueError naming the valid options. On success the figure is created and
the three label texts receive their defaults, blanked when blank_labels is
set. Plot dimensions come from the Style object (outside this repository)
and are passed in as parameters. The legend list starts empty and the
bokeh toolbar sits at its default slot on the right. -/
def Chart.init (blank_labels : Bool) (plot_width plot_height : Nat)
    (x_axis_type y_axis_type : String) : Except ChartInitError Chart :=
  if x_axis_type ∈ valid_x_axis_types then
    if y_axis_type ∈ valid_y_axis_types then
      Except.ok {
        blankLabels := blank_labels
        xAxisType := x_axis_type
        yAxisType := y_axis_type
        plotWidth := plot_width
        plotHeight := plot_height
        titleText := if blank_labels then "" else default_title_text
        subtitleText := if blank_labels then "" else default_subtitle_text
        sourceTextVal := if blank_labels then "" else default_source_text
        legend := Option.none
        toolbarLocation := some "right" }
    else Except.error (ChartInitError.invalidYAxisType valid_y_axis_types)
  else Except.error (ChartInitError.invalidXAxisType valid_x_axis_types)

/-- The title property: figure.title.text. -/
def Chart.title (c : Chart) : String := c.titleText

/-- The subtitle property: text of the subtitle glyph. -/
def Chart.subtitle (c : Chart) : String := c.subtitleText

/-- The source_text property: text of the source label glyph. -/
def Chart.source_text (c : Chart) : String := c.sourceTextVal

/-- Chart.set_title: assigns figure.title.text and returns self. -/
def Chart.set_title (c : Chart) (title : String) : Chart × RetVal :=
  ({ c with titleText := title }, RetVal.self)

/-- Chart.set_subtitle: assigns the subtitle glyph text and returns self. -/
def Chart.set_subtitle (c : Chart) (subtitle : String) : Chart × RetVal :=
  ({ c with subtitleText := subtitle }, RetVal.self)

/-- Chart.set_source_label: assigns the source glyph text and returns self. -/
def Chart.set_source_label (c : Chart) (source : String) : Chart × RetVal :=
  ({ c with sourceTextVal := source }, RetVal.self)

/-- Claim C3: Chart construction raises a ValueError naming the valid options
if and only if x_axis_type is not in the valid x set or y_axis_type is not in
the valid y set; for every pair drawn from those sets construction does not
raise this error. -/
theorem chart_init_axis_type_validation (b : Bool) (w h : Nat) (x y : String) :
    (x ∉ valid_x_axis_types →
      Chart.init b w h x y
        = Except.error (ChartInitError.invalidXAxisType valid_x_axis_types))
    ∧ (x ∈ valid_x_axis_types → y ∉ valid_y_axis_types →
      Chart.init b w h x y
        = Except.error (ChartInitError.invalidYAxisType valid_y_axis_types))
    ∧ (x ∈ valid_x_axis_types → y ∈ valid_y_axis_types →
      ∃ c, Chart.init b w h x y = Except.ok c) := by
  refine ⟨fun hx => ?_, fun hx hy => ?_, fun hx hy => ?_⟩
  · simp [Chart.init, hx]
  · simp [Chart.init, hx, hy]
  · simp only [Chart.init, if_pos hx, if_pos hy]
    exact ⟨_, rfl⟩

/-- Witness for C3 at concrete inputs: a pair with valid x and invalid y is
rejected with the error naming the valid y options. -/
theorem chart_init_axis_type_validation_witness :
    Chart.init false 960 540 "datetime" "datetime"
      = Except.error (ChartInitError.invalidYAxisType valid_y_axis_types) :=
  (chart_init_axis_type_validation false 960 540 "datetime" "datetime").2.1
    (by decide) (by decide)

/-- Claim C4: setting the title, subtitle or source label and then reading the
corresponding property returns exactly the string that was set. -/
theorem label_set_get_roundtrip (c : Chart) (s : String) :
    (c.set_title s).1.title = s
    ∧ (c.set_subtitle s).1.subtitle = s
    ∧ (c.set_source_label s).1.source_text = s :=
  ⟨rfl, rfl, rfl⟩

/-- Claim C5: immediately after construction with blank_labels true the
title, subtitle and source_text properties are all empty; with blank_labels
false they are the non-empty default placeholder strings. -/
theorem blank_labels_default_text (b : Bool) (w h : Nat) (x y : String)
    (c : Chart) (hc : Chart.init b w h x y = Except.ok c) :
    (b = true → c.title = "" ∧ c.subtitle = "" ∧ c.source_text = "")
    ∧ (b = false →
        c.title = default_title_text
        ∧ c.subtitle = default_subtitle_text
        ∧ c.source_text = default_source_text
        ∧ c.title ≠ "" ∧ c.subtitle ≠ "" ∧ c.source_text ≠ "") := by
  by_cases hx : x ∈ valid_x_axis_types
  · by_cases hy : y ∈ valid_y_axis_types
    · simp only [Chart.init, if_pos hx, if_pos hy, Except.ok.injEq] at hc
      subst hc
      cases b
      · refine ⟨fun hb => by simp at hb, fun _ => ?_⟩
        simp [Chart.title, Chart.subtitle, Chart.source_text,
          default_title_text, default_subtitle_text, default_source_text]
      · exact ⟨fun _ => ⟨rfl, rfl, rfl⟩, fun hb => by simp at hb⟩
    · simp [Chart.init, hx, hy] at hc
  · simp [Chart.init, hx] at hc

/-- Witness for C5: the concrete state produced by a blank-labels
construction has all three labels empty. -/
def blank_chart_example : Chart :=
  { blankLabels := true
    xAxisType := "linear"
    yAxisType := "linear"
    plotWidth := 960
    plotHeight := 540
    titleText := ""
    subtitleText := ""
    sourceTextVal := ""
    legend := Option.none
    toolbarLocation := some "right" }

theorem blank_labels_default_text_witness :
    blank_chart_example.title = ""
    ∧ blank_chart_example.subtitle = ""
    ∧ blank_chart_example.source_text = "" :=
  (blank_labels_default_text true 960 540 "linear" "linear"
    blank_chart_example rfl).1 rfl

/-- Inner helper add_outside_legend of Chart.set_legend_location. When the
figure has no legend (no data plotted yet, figure.legend is an empty
splattable list) the location assignment is a no-op, a UserWarning is issued
and the helper returns early; the returned flag records whether the warning
was issued. Otherwise the existing legend object has its location set, its
plot back-reference cleared and its orientation updated, and add_layout
re-attaches it in the given layout slot. -/
def Chart.add_outside_legend (c : Chart) (orientation : String)
    (legend_location layout_location : String) : Chart × Bool :=
  match c.legend with
  | Option.none => (c, true)
  | some l =>
      ({ c with legend := some { l with
          location := LocVal.name legend_location
          attachedToPlot := false
          orientation := orientation
          panel := layout_location } }, false)

/-- Chart.set_legend_location. Mirrors the if/elif chain of the source: the
three outside placements go through add_outside_legend (the outside_top
branch additionally removes and re-adds the subtitle glyph with the same
text, which leaves the observable subtitle unchanged); None sets
figure.legend.visible to False (a no-op on an empty legend list); any other
value assigns figure.legend.location and orientation directly (again a
no-op on an empty legend list). Returns the new state, whether a warning was
issued, and the value of the Python return statement. -/
def Chart.set_legend_location (c : Chart) (location : LocArg)
    (orientation : String) : Chart × Bool × RetVal :=
  if location = LocArg.name "outside_top" then
    let r := c.add_outside_legend orientation "top_left" "above"
    (r.1, r.2, RetVal.self)
  else if location = LocArg.name "outside_bottom" then
    let r := c.add_outside_legend orientation "bottom_center" "below"
    (r.1, r.2, RetVal.self)
  else if location = LocArg.name "outside_right" then
    let r := c.add_outside_legend orientation "top_left" "right"
    (r.1, r.2, RetVal.self)
  else if location = LocArg.noneLoc then
    match c.legend with
    | Option.none => (c, false, RetVal.self)
    | some l =>
        ({ c with legend := some { l with visible := false } },
          false, RetVal.self)
  else
    match c.legend, location with
    | Option.none, _ => (c, false, RetVal.self)
    | some l, LocArg.name s =>
        ({ c with legend := some { l with
            location := LocVal.name s, orientation := orientation } },
          false, RetVal.self)
    | some l, LocArg.coords x y =>
        ({ c with legend := some { l with
            location := LocVal.coords x y, orientation := orientation } },
          false, RetVal.self)
    | some _, LocArg.noneLoc => (c, false, RetVal.self)

/-- Message of the ValueError raised by Chart.set_toolbar_for_format. -/
def invalid_format_message : String :=
  "Invalid format. Valid options are \x27html\x27 or \x27png\x27."

/-- Chart.set_toolbar_for_format: html places the toolbar on the right, png
removes it, Python None is passed through without effect (the chart will not
be shown), and every other value raises a ValueError. -/
def Chart.set_toolbar_for_format (c : Chart) (format : Option String) :
    Except String Chart :=
  if format = some "html" then
    Except.ok { c with toolbarLocation := some "right" }
  else if format = some "png" then
    Except.ok { c with toolbarLocation := Option.none }
  else if format = Option.none then
    Except.ok c
  else Except.error invalid_format_message

/-- Chart.figure_to_png, final image-processing step. The headless-browser
screenshot, decoded into an image, is passed in as a parameter (the browser
is an external process). If the decoded size differs from the configured
target dimensions the image is resized to the target with the Lanczos
filter; otherwise it is returned unchanged. -/
def Chart.figure_to_png (c : Chart) (screenshot : PILImage) : PILImage :=
  let target_dimensions := (c.plotWidth, c.plotHeight)
  if screenshot.size ≠ target_dimensions then
    screenshot.resize target_dimensions Resample.lanczos
  else screenshot

/-- File output produced by Chart.save. -/
inductive SaveOutput
  | htmlFile (filename : String)
  | pngFile (filename : String) (image : PILImage)
  | noFile
  deriving DecidableEq

/-- Display output produced by Chart.show. -/
inductive ShowOutput
  | htmlShow
  | pngDisplay (image : PILImage)
  | noOutput
  deriving DecidableEq

/-- Chart.save: sets the toolbar for the format (which raises on an invalid
format), then writes an HTML document or the PNG image produced by
figure_to_png, prints a confirmation and returns self. The raw screenshot
consumed by the png path is a parameter, as in figure_to_png. -/
def Chart.save (c : Chart) (filename : String) (format : Option String)
    (screenshot : PILImage) : Except String (Chart × SaveOutput × RetVal) :=
  match c.set_toolbar_for_format format with
  | Except.error e => Except.error e
  | Except.ok c2 =>
    if format = some "html" then
      Except.ok (c2, SaveOutput.htmlFile filename, RetVal.self)
    else if format = some "png" then
      Except.ok (c2, SaveOutput.pngFile filename (c2.figure_to_png screenshot),
        RetVal.self)
    else Except.ok (c2, SaveOutput.noFile, RetVal.self)

/-- Chart.show: sets the toolbar for the format (which raises on an invalid
format), then either shows the figure as HTML, displays the PNG image, or
does nothing for any other accepted value. -/
def Chart.show (c : Chart) (format : Option String) (screenshot : PILImage) :
    Except String (Chart × ShowOutput) :=
  match c.set_toolbar_for_format format with
  | Except.error e => Except.error e
  | Except.ok c2 =>
    if format = some "html" then
      Except.ok (c2, ShowOutput.htmlShow)
    else if format = some "png" then
      Except.ok (c2, ShowOutput.pngDisplay (c2.figure_to_png screenshot))
    else Except.ok (c2, ShowOutput.noOutput)

/-- Claim C1: save with format png writes an image whose pixel dimensions
equal the configured (plot_width, plot_height): figure_to_png returns the
decoded screenshot unchanged when its size already equals the target and
otherwise returns it resized to exactly the target with the Lanczos filter,
and the png save path writes exactly that image. -/
theorem save_png_dimensions (c : Chart) (fn : String) (s : PILImage) :
    (c.figure_to_png s).size = (c.plotWidth, c.plotHeight)
    ∧ c.figure_to_png s
        = (if s.size = (c.plotWidth, c.plotHeight) then s
           else s.resize (c.plotWidth, c.plotHeight) Resample.lanczos)
    ∧ c.save fn (some "png") s
        = Except.ok ({ c with toolbarLocation := Option.none },
            SaveOutput.pngFile fn (c.figure_to_png s), RetVal.self) := by
  by_cases hs : s.size = (c.plotWidth, c.plotHeight)
  · refine ⟨?_, ?_, ?_⟩
    · simp [Chart.figure_to_png, hs]
    · simp [Chart.figure_to_png, hs]
    · simp [Chart.save, Chart.set_toolbar_for_format, Chart.figure_to_png, hs]
  · refine ⟨?_, ?_, ?_⟩
    · have h2 : c.figure_to_png s
          = s.resize (c.plotWidth, c.plotHeight) Resample.lanczos := by
        simp [Chart.figure_to_png, hs]
      rw [h2]
      rfl
    · simp [Chart.figure_to_png, hs]
    · simp [Chart.save, Chart.set_toolbar_for_format, Chart.figure_to_png, hs]

/-- Claim C2 counterexample: calling save or show with format None does not
raise: the toolbar dispatch passes None through and both calls complete
without error (writing and showing nothing), although the claim requires a
ValueError for every value other than html and png, including None. -/
theorem format_none_does_not_raise :
    blank_chart_example.save "chart.html" Option.none (PILImage.decoded 1 1)
      = Except.ok (blank_chart_example, SaveOutput.noFile, RetVal.self)
    ∧ blank_chart_example.show Option.none (PILImage.decoded 1 1)
      = Except.ok (blank_chart_example, ShowOutput.noOutput) :=
  ⟨rfl, rfl⟩

/-- Claim C2 amended: for every string format other than html and png, show
and save raise a ValueError; format None, however, is deliberately passed
through: the toolbar dispatch accepts it and show and save complete without
raising and without producing any output. -/
theorem invalid_format_value_error (c : Chart) (fn : String) (s : PILImage)
    (fmt : String) (h1 : fmt ≠ "html") (h2 : fmt ≠ "png") :
    c.set_toolbar_for_format (some fmt) = Except.error invalid_format_message
    ∧ c.save fn (some fmt) s = Except.error invalid_format_message
    ∧ c.show (some fmt) s = Except.error invalid_format_message
    ∧ c.set_toolbar_for_format Option.none = Except.ok c
    ∧ c.save fn Option.none s = Except.ok (c, SaveOutput.noFile, RetVal.self)
    ∧ c.show Option.none s = Except.ok (c, ShowOutput.noOutput) := by
  refine ⟨?_, ?_, ?_, rfl, rfl, rfl⟩ <;>
    simp [Chart.set_toolbar_for_format, Chart.save, Chart.show, h1, h2]

/-- Witness for C2 amended at a concrete invalid format string. -/
theorem invalid_format_value_error_witness :
    blank_chart_example.set_toolbar_for_format (some "pdf")
      = Except.error invalid_format_message :=
  (invalid_format_value_error blank_chart_example "chart.pdf"
    (PILImage.decoded 1 1) "pdf" (by decide) (by decide)).1

/-- Claim C6: with a legend present, set_legend_location None leaves the
legend attached but makes it invisible, and each outside placement keeps the
existing legend object and re-attaches it to the layout slot above, below or
right of the plot area respectively, never deleting it. -/
theorem set_legend_location_preserves_legend (c : Chart) (l : Legend)
    (o : String) (h : c.legend = some l) :
    (c.set_legend_location LocArg.noneLoc o).1.legend
      = some { l with visible := false }
    ∧ (c.set_legend_location (LocArg.name "outside_top") o).1.legend
      = some { l with
          location := LocVal.name "top_left"
          attachedToPlot := false
          orientation := o
          panel := "above" }
    ∧ (c.set_legend_location (LocArg.name "outside_bottom") o).1.legend
      = some { l with
          location := LocVal.name "bottom_center"
          attachedToPlot := false
          orientation := o
          panel := "below" }
    ∧ (c.set_legend_location (LocArg.name "outside_right") o).1.legend
      = some { l with
          location := LocVal.name "top_left"
          attachedToPlot := false
          orientation := o
          panel := "right" } := by
  refine ⟨?_, ?_, ?_, ?_⟩ <;>
    simp [Chart.set_legend_location, Chart.add_outside_legend, h]

/-- Sample legend sitting inside the plot area. -/
def legend_example : Legend :=
  { location := LocVal.name "top_left"
    orientation := "horizontal"
    visible := true
    panel := "center"
    attachedToPlot := true }

/-- Sample chart that has a legend attached. -/
def legend_chart_example : Chart :=
  { blank_chart_example with legend := some legend_example }

/-- Witness for C6 at a concrete chart with a legend: None hides the legend
without detaching it. -/
theorem set_legend_location_preserves_legend_witness :
    (legend_chart_example.set_legend_location LocArg.noneLoc
      "horizontal").1.legend = some { legend_example with visible := false } :=
  (set_legend_location_preserves_legend legend_chart_example legend_example
    "horizontal" rfl).1

/-- Claim C9 counterexample: with no legend on the figure, requesting the
inside position top_left issues no warning, although the claim requires a
warning for every requested location value. -/
theorem no_legend_warning_counterexample :
    (blank_chart_example.set_legend_location (LocArg.name "top_left")
      "horizontal").2.1 = false := by
  decide

/-- Claim C9 amended: when the figure has no legend yet, set_legend_location
issues the no-legend warning exactly for the three outside placements; for
every other location value (inside names, coordinates, None) the call is a
silent no-op on the missing legend; in every case it completes without
raising, leaves the chart unchanged and returns self. -/
theorem no_legend_warning_only_outside (c : Chart) (loc : LocArg) (o : String)
    (h : c.legend = Option.none) :
    ((c.set_legend_location loc o).2.1 = true
      ↔ (loc = LocArg.name "outside_top" ∨ loc = LocArg.name "outside_bottom"
          ∨ loc = LocArg.name "outside_right"))
    ∧ (c.set_legend_location loc o).1 = c
    ∧ (c.set_legend_location loc o).2.2 = RetVal.self := by
  unfold Chart.set_legend_location
  split_ifs with h1 h2 h3 h4
  · simp [Chart.add_outside_legend, h, h1]
  · simp [Chart.add_outside_legend, h, h2]
  · simp [Chart.add_outside_legend, h, h3]
  · simp [h, h4]
  · simp [h, h1, h2, h3]

/-- Witness for C9 amended at a concrete chart without a legend and the
outside_bottom placement: the warning is issued and the chart is unchanged. -/
theorem no_legend_warning_only_outside_witness :
    ((blank_chart_example.set_legend_location (LocArg.name "outside_bottom")
        "horizontal").2.1 = true
      ↔ (LocArg.name "outside_bottom" = LocArg.name "outside_top"
          ∨ LocArg.name "outside_bottom" = LocArg.name "outside_bottom"
          ∨ LocArg.name "outside_bottom" = LocArg.name "outside_right"))
    ∧ (blank_chart_example.set_legend_location (LocArg.name "outside_bottom")
        "horizontal").1 = blank_chart_example
    ∧ (blank_chart_example.set_legend_location (LocArg.name "outside_bottom")
        "horizontal").2.2 = RetVal.self :=
  no_legend_warning_only_outside blank_chart_example
    (LocArg.name "outside_bottom") "horizontal" rfl

/-- Claim C10: every public mutator of the chart — set_title, set_subtitle,
set_source_label, set_legend_location and save — returns the chart object it
was called on, so calls can be chained; none of them returns None on the
success path. -/
theorem mutators_return_self (c : Chart) (s t u o fn : String) (loc : LocArg)
    (format : Option String) (screenshot : PILImage) :
    (c.set_title s).2 = RetVal.self
    ∧ (c.set_subtitle t).2 = RetVal.self
    ∧ (c.set_source_label u).2 = RetVal.self
    ∧ (c.set_legend_location loc o).2.2 = RetVal.self
    ∧ (∀ r, c.save fn format screenshot = Except.ok r
        → r.2.2 = RetVal.self) := by
  refine ⟨rfl, rfl, rfl, ?_, ?_⟩
  · unfold Chart.set_legend_location
    split_ifs
    · rfl
    · rfl
    · rfl
    · cases c.legend <;> rfl
    · cases c.legend <;> cases loc <;> rfl
  · intro r hr
    by_cases h1 : format = some "html"
    · simp [Chart.save, Chart.set_toolbar_for_format, h1] at hr
      subst hr
      rfl
    · by_cases h2 : format = some "png"
      · simp [Chart.save, Chart.set_toolbar_for_format, h1, h2] at hr
        subst hr
        rfl
      · by_cases h3 : format = Option.none
        · simp [Chart.save, Chart.set_toolbar_for_format, h1, h2, h3] at hr
          subst hr
          rfl
        · simp [Chart.save, Chart.set_toolbar_for_format, h1, h2, h3] at hr

/-- Witness for C10 at concrete inputs: a save with format None succeeds and
the returned value is self. -/
theorem mutators_return_self_witness :
    (blank_chart_example, SaveOutput.noFile, RetVal.self).2.2 = RetVal.self :=
  (mutators_return_self blank_chart_example "a" "b" "c" "horizontal"
    "out.html" LocArg.noneLoc Option.none (PILImage.decoded 1 1)).2.2.2.2
    (blank_chart_example, SaveOutput.noFile, RetVal.self) rfl

/-- One paste operation applied to an image: the pasted region size, the
upper-left corner of the destination box (image coordinates: the origin is
the top-left corner and y grows downward), and whether the paste used the
pasted image itself as its alpha mask. -/
structure Paste where
  pastedWidth : Nat
  pastedHeight : Nat
  x : Int
  y : Int
  alphaMask : Bool
  deriving DecidableEq

/-- A chart screenshot image being post-processed: its pixel dimensions and
the paste operations applied to it so far. -/
structure ChartImage where
  width : Nat
  height : Nat
  pastes : List Paste
  deriving DecidableEq

/-- The Logo object attached to a chart: the optional resized logo image and
the name-to-filename mapping, kept as an ordered association list. -/
structure Logo where
  logoImage : Option PILImage
  logoFileMapping : List (String × String)
  deriving DecidableEq

/-- Logo.init: no logo image is set and the file mapping is empty. -/
def Logo.init : Logo :=
  { logoImage := Option.none, logoFileMapping := [] }

/-- Logo.add_logo_to_image. When no logo image is set the chart image is
returned unchanged. Otherwise the logo is pasted with itself as alpha mask
at x = right edge of the image content box minus the logo width minus a
10 pixel padding, and y = 0 + 10 pixels, measured from the top-left origin
(getbbox of an opaque screenshot is the full image, so its right edge is
the image width). -/
def Logo.add_logo_to_image (lg : Logo) (image : ChartImage) : ChartImage :=
  match lg.logoImage with
  | Option.none => image
  | some logo =>
    let x_dim : Int := image.width
    let width : Int := logo.size.1
    let padding : Int := 10
    let coords : Int × Int := (x_dim - width - padding, 0 + padding)
    { image with pastes := image.pastes ++
        [{ pastedWidth := logo.size.1
           pastedHeight := logo.size.2
           x := coords.1
           y := coords.2
           alphaMask := true }] }

/-- The paste position as claim C8 words it: the bottom-right corner with a
fixed padding of 10 pixels, so the destination box starts 10 pixels left of
the right edge and ends 10 pixels above the bottom edge; in top-left-origin
image coordinates its upper-left corner has
y = image height - logo height - padding. Written from the claim, to be
compared with Logo.add_logo_to_image, which embeds the source. -/
def Logo.add_logo_to_image_claimed (lg : Logo) (image : ChartImage) :
    ChartImage :=
  match lg.logoImage with
  | Option.none => image
  | some logo =>
    let padding : Int := 10
    { image with pastes := image.pastes ++
        [{ pastedWidth := logo.size.1
           pastedHeight := logo.size.2
           x := (image.width : Int) - (logo.size.1 : Int) - padding
           y := (image.height : Int) - (logo.size.2 : Int) - padding
           alphaMask := true }] }

/-- Logo.set_logo. Looks the supplied name up in the file mapping; an
unknown name (or the None default) raises a KeyError whose message lists the
valid registered names, leaving the object untouched — the error value
carries the object state at raise time. On success the file is opened and
resized (both delegated to the external image library, passed in as the
open_and_resize parameter) and stored as the logo image. -/
def Logo.set_logo (lg : Logo) (open_and_resize : String → PILImage)
    (logo : Option String) : Except (List String × Logo) Logo :=
  match (match logo with
         | Option.none => (Option.none : Option String)
         | some k => lg.logoFileMapping.lookup k) with
  | Option.none => Except.error (lg.logoFileMapping.map Prod.fst, lg)
  | some filename =>
      Except.ok { lg with logoImage := some (open_and_resize filename) }

/-- Association-list lookup misses every key that is not in the key list. -/
theorem lookup_eq_none_of_not_mem_keys (m : List (String × String))
    (k : String) (h : k ∉ m.map Prod.fst) : m.lookup k = Option.none := by
  induction m with
  | nil => rfl
  | cons p t ih =>
    cases p with
    | mk a b =>
      simp only [List.map_cons, List.mem_cons, not_or] at h
      have hne : (k == a) = false := beq_eq_false_iff_ne.mpr h.1
      simp [List.lookup, hne, ih h.2]

/-- Claim C7: for every name that is not a key of the logo file mapping,
set_logo raises a KeyError listing the valid registered names, and the
stored logo image (the whole Logo state) is unchanged by the failing call. -/
theorem set_logo_invalid_name (lg : Logo) (f : String → PILImage) (k : String)
    (h : k ∉ lg.logoFileMapping.map Prod.fst) :
    lg.set_logo f (some k)
      = Except.error (lg.logoFileMapping.map Prod.fst, lg) := by
  have hl := lookup_eq_none_of_not_mem_keys lg.logoFileMapping k h
  simp [Logo.set_logo, hl]

/-- Witness for C7: on the freshly constructed Logo object, whose mapping is
empty, any name fails with the (empty) list of valid names and the state is
returned untouched. -/
theorem set_logo_invalid_name_witness :
    Logo.init.set_logo (fun _ => PILImage.decoded 1 1) (some "spotify")
      = Except.error ([], Logo.init) :=
  set_logo_invalid_name Logo.init (fun _ => PILImage.decoded 1 1) "spotify"
    (by decide)

/-- A Logo object holding a 100 by 50 pixel logo image. -/
def logo_with_image_example : Logo :=
  { logoImage := some (PILImage.decoded 100 50), logoFileMapping := [] }

/-- A bare 800 by 600 pixel chart screenshot. -/
def chart_image_example : ChartImage :=
  { width := 800, height := 600, pastes := [] }

/-- Claim C8 counterexample: pasting a 100 by 50 logo onto an 800 by 600
image, the code places the destination box at y = 10 from the top of the
image, not at y = 540 as the bottom-right-corner reading requires, so the
result differs from the claimed one. -/
theorem add_logo_corner_counterexample :
    logo_with_image_example.add_logo_to_image chart_image_example
      ≠ logo_with_image_example.add_logo_to_image_claimed chart_image_example
    ∧ (logo_with_image_example.add_logo_to_image chart_image_example).pastes
      = [{ pastedWidth := 100, pastedHeight := 50, x := 690, y := 10,
           alphaMask := true }] := by
  refine ⟨?_, ?_⟩ <;> decide

/-- Claim C8 amended: when a logo image is set, add_logo_to_image composites
the resized logo into the top-right corner of the chart image — right-aligned
with a 10 pixel padding from the right edge and 10 pixels from the top edge —
using an alpha-composited paste; when no logo is set the image is returned
unchanged. -/
theorem add_logo_top_right_paste (lg : Logo) (img : ChartImage) :
    (lg.logoImage = Option.none → lg.add_logo_to_image img = img)
    ∧ (∀ logo, lg.logoImage = some logo →
        lg.add_logo_to_image img
          = { img with pastes := img.pastes ++
              [{ pastedWidth := logo.size.1
                 pastedHeight := logo.size.2
                 x := (img.width : Int) - (logo.size.1 : Int) - 10
                 y := 10
                 alphaMask := true }] }) := by
  constructor
  · intro h
    simp [Logo.add_logo_to_image, h]
  · intro logo h
    simp [Logo.add_logo_to_image, h]

/-- Witness for C8 amended at the concrete 100 by 50 logo and 800 by 600
image: one alpha-masked paste at (690, 10). -/
theorem add_logo_top_right_paste_witness :
    logo_with_image_example.add_logo_to_image chart_image_example
      = { chart_image_example with pastes :=
          [{ pastedWidth := 100, pastedHeight := 50, x := 690, y := 10,
             alphaMask := true }] } := by
  rw [(add_logo_top_right_paste logo_with_image_example
    chart_image_example).2 (PILImage.decoded 100 50) rfl]
  decide
